import Mathlib

/-!
Verification of the PluginSystem repository's specification.

The repository's visible source is `src/examples/python_example.py`, an
example script exercising a host-embedded scripting bridge.  The script
defines `calculate_fibonacci`, which is embedded below directly from the
source.  The bridge's native `Vector3` type and math module functions are
described by the specification but their implementation is not under
`src/`; those operations are modelled from the specification's explicit
formulas, with IEEE doubles modelled as real numbers.
-/

/-! ## Fibonacci, embedded from `src/examples/python_example.py` -/

/-- Number of iterations of the Python loop `for _ in range(2, n + 1)`:
the range `range(2, n + 1)` has `max (n + 1 - 2) 0` elements. -/
def rangeSize (n : Int) : Nat := (n + 1 - 2).toNat

/-- The loop body of `calculate_fibonacci`: `a, b = b, a + b`, iterated a
given number of times over the state `(a, b)`. -/
def fibLoop : Nat → Int × Int → Int × Int
  | 0, p => p
  | k + 1, (a, b) => fibLoop k (b, a + b)

/-- `calculate_fibonacci` from `src/examples/python_example.py`:
if `n <= 0` return `0`; elif `n == 1` return `1`; else run
`a, b = 0, 1` then `for _ in range(2, n + 1): a, b = b, a + b` and
return `b`. -/
def calculate_fibonacci (n : Int) : Int :=
  if n ≤ 0 then 0
  else if n = 1 then 1
  else (fibLoop (rangeSize n) (0, 1)).2

/-- The standard Fibonacci recurrence, as a naive recursive reference
definition: `F 0 = 0`, `F 1 = 1`, `F (n+2) = F (n+1) + F n`. -/
def fibRef : Nat → Int
  | 0 => 0
  | 1 => 1
  | n + 2 => fibRef (n + 1) + fibRef n

/-- Fuel-indexed version of the loop: each iteration consumes one unit of
fuel; returns `none` when the fuel runs out before the iterations do. -/
def fibLoopFuel : Nat → Nat → Int × Int → Option (Int × Int)
  | _, 0, p => some p
  | 0, _ + 1, _ => none
  | f + 1, k + 1, (a, b) => fibLoopFuel f k (b, a + b)

/-- Fuel-indexed version of `calculate_fibonacci`, used to express that the
function's only loop performs a finite, bounded number of iterations. -/
def calcFibFuel (fuel : Nat) (n : Int) : Option Int :=
  if n ≤ 0 then some 0
  else if n = 1 then some 1
  else (fibLoopFuel fuel (rangeSize n) (0, 1)).map Prod.snd

/-! ### Helper lemmas about the loop -/

/-- Running the loop `k` steps from `(F m, F (m+1))` gives
`(F (m+k), F (m+k+1))`. -/
theorem fibLoop_fibRef (k : Nat) :
    ∀ m : Nat, fibLoop k (fibRef m, fibRef (m + 1)) =
      (fibRef (m + k), fibRef (m + k + 1)) := by
  induction k with
  | zero => intro m; simp [fibLoop]
  | succ k ih =>
    intro m
    have hstep : fibRef m + fibRef (m + 1) = fibRef (m + 2) := by
      simp [fibRef, Int.add_comm]
    calc fibLoop (k + 1) (fibRef m, fibRef (m + 1))
        = fibLoop k (fibRef (m + 1), fibRef m + fibRef (m + 1)) := rfl
      _ = fibLoop k (fibRef (m + 1), fibRef (m + 1 + 1)) := by
          rw [hstep]
      _ = (fibRef (m + 1 + k), fibRef (m + 1 + k + 1)) := ih (m + 1)
      _ = (fibRef (m + (k + 1)), fibRef (m + (k + 1) + 1)) := by
          ring_nf

/-- With fuel equal to the iteration count, the fuel-indexed loop completes
and agrees with the total loop. -/
theorem fibLoopFuel_complete (k : Nat) :
    ∀ p : Int × Int, fibLoopFuel k k p = some (fibLoop k p) := by
  induction k with
  | zero => intro p; simp [fibLoopFuel, fibLoop]
  | succ k ih =>
    intro p
    obtain ⟨a, b⟩ := p
    simpa [fibLoopFuel, fibLoop] using ih (b, a + b)

/-- For `n ≥ 2`, `calculate_fibonacci n` computes `fibRef (toNat n)`. -/
theorem calculate_fibonacci_ge_two (n : Int) (h2 : 2 ≤ n) :
    calculate_fibonacci n = fibRef n.toNat := by
  have h0 : ¬ n ≤ 0 := by omega
  have h1 : n ≠ 1 := by omega
  have hk : rangeSize n = n.toNat - 1 := by
    unfold rangeSize; omega
  have hm : n.toNat - 1 + 1 = n.toNat := by omega
  have hloop := fibLoop_fibRef (n.toNat - 1) 0
  simp only [Nat.zero_add] at hloop
  unfold calculate_fibonacci
  rw [if_neg h0, if_neg h1, hk]
  show (fibLoop (n.toNat - 1) (fibRef 0, fibRef 1)).2 = fibRef n.toNat
  rw [hloop]
  show fibRef (n.toNat - 1 + 1) = fibRef n.toNat
  rw [hm]

/-! ## Vector3 and the math module, modelled from the spec

The bridge's native code is not under `src/`, so these definitions follow
the specification's formulas.  They live in the `Plugin` namespace because
Mathlib already uses some of these names. -/

namespace Plugin

/-- Modelled from the spec: the bridge's native `Vector3` type (sections 3
and 4.2).  The bridge implementation is not under `src/` (only example
usage is), so the type is taken from the specification: three numeric
components `x`, `y`, `z`; IEEE doubles are modelled as real numbers. -/
@[ext]
structure Vector3 where
  x : ℝ
  y : ℝ
  z : ℝ

/-- Modelled from the spec: `add(a,b) = (a.x+b.x, a.y+b.y, a.z+b.z)`. -/
def vadd (a b : Vector3) : Vector3 :=
  ⟨a.x + b.x, a.y + b.y, a.z + b.z⟩

/-- Modelled from the spec: `subtract` is the symmetric negation of `add`,
componentwise `a - b`. -/
def vsub (a b : Vector3) : Vector3 :=
  ⟨a.x - b.x, a.y - b.y, a.z - b.z⟩

/-- Modelled from the spec: `scalarMultiply(v,k) = (v.x*k, v.y*k, v.z*k)`. -/
def scalarMultiply (v : Vector3) (k : ℝ) : Vector3 :=
  ⟨v.x * k, v.y * k, v.z * k⟩

/-- Componentwise negation of a `Vector3`, used to state the spec's
anti-commutativity property `cross(a,b) == -cross(b,a)`. -/
def vneg (v : Vector3) : Vector3 :=
  ⟨-v.x, -v.y, -v.z⟩

/-- Modelled from the spec: `dot(a,b) = a.x*b.x + a.y*b.y + a.z*b.z`. -/
def dot (a b : Vector3) : ℝ :=
  a.x * b.x + a.y * b.y + a.z * b.z

/-- Modelled from the spec: right-handed cross product
`cross(a,b) = (a.y*b.z - a.z*b.y, a.z*b.x - a.x*b.z, a.x*b.y - a.y*b.x)`. -/
def cross (a b : Vector3) : Vector3 :=
  ⟨a.y * b.z - a.z * b.y, a.z * b.x - a.x * b.z, a.x * b.y - a.y * b.x⟩

/-- Modelled from the spec: `length(v) = sqrt(dot(v,v))`. -/
noncomputable def length (v : Vector3) : ℝ :=
  Real.sqrt (dot v v)

/-- Modelled from the spec: `normalize(v)`: if `length(v) == 0`, fail with
DomainError (modelled as `none`); else divide each component by length. -/
noncomputable def normalize (v : Vector3) : Option Vector3 :=
  if length v = 0 then none
  else some ⟨v.x / length v, v.y / length v, v.z / length v⟩

/-- Modelled from the spec: `rotated(v, axis, angleRadians)`: fails with
DomainError (modelled as `none`) if `axis` has zero length; else rotates
about the internally unit-normalized copy `n` of `axis` by Rodrigues'
rotation formula `v*cos t + (n x v)*sin t + n*(n.v)*(1 - cos t)`. -/
noncomputable def rotated (v axis : Vector3) (angle : ℝ) : Option Vector3 :=
  if length axis = 0 then none
  else
    let n : Vector3 :=
      ⟨axis.x / length axis, axis.y / length axis, axis.z / length axis⟩
    some (vadd (vadd (scalarMultiply v (Real.cos angle))
      (scalarMultiply (cross n v) (Real.sin angle)))
      (scalarMultiply n (dot n v * (1 - Real.cos angle))))

/-- Modelled from the spec: the math module's `lerp(a, b, t) = a + (b - a) * t`
on scalars. -/
def lerp (a b t : ℝ) : ℝ :=
  a + (b - a) * t

/-- Modelled from the spec: `lerp` applied componentwise when `a`, `b` are
`Vector3`. -/
def lerpV (a b : Vector3) (t : ℝ) : Vector3 :=
  ⟨lerp a.x b.x t, lerp a.y b.y t, lerp a.z b.z t⟩

/-! ### Helper lemmas about length -/

/-- `dot v v` is a sum of squares, hence nonnegative. -/
theorem dot_self_nonneg (v : Vector3) : 0 ≤ dot v v := by
  unfold dot
  nlinarith [mul_self_nonneg v.x, mul_self_nonneg v.y, mul_self_nonneg v.z]

/-- `length v * length v = dot v v`. -/
theorem length_mul_self (v : Vector3) : length v * length v = dot v v := by
  unfold length
  exact Real.mul_self_sqrt (dot_self_nonneg v)

/-- The length of a vector vanishes exactly on the zero vector. -/
theorem length_eq_zero_iff (v : Vector3) :
    length v = 0 ↔ v = ⟨0, 0, 0⟩ := by
  unfold length
  rw [Real.sqrt_eq_zero (dot_self_nonneg v)]
  unfold dot
  constructor
  · intro h
    have hx : v.x = 0 := by
      nlinarith [mul_self_nonneg v.x, mul_self_nonneg v.y, mul_self_nonneg v.z]
    have hy : v.y = 0 := by
      nlinarith [mul_self_nonneg v.x, mul_self_nonneg v.y, mul_self_nonneg v.z]
    have hz : v.z = 0 := by
      nlinarith [mul_self_nonneg v.x, mul_self_nonneg v.y, mul_self_nonneg v.z]
    exact Vector3.ext hx hy hz
  · intro h
    rw [h]
    norm_num

end Plugin

/-! ## Claims about `calculate_fibonacci` -/

/-- C1: calling the script-defined function `calculate_fibonacci` with
argument 0 returns 0, with argument 1 returns 1, and with argument 10
returns 55. -/
theorem C1_fibonacci_values :
    calculate_fibonacci 0 = 0 ∧ calculate_fibonacci 1 = 1 ∧
      calculate_fibonacci 10 = 55 := by
  decide

/-- C8: for every integer `n ≥ 0`, the iterative `calculate_fibonacci`
returns `F n` of the standard recurrence `F 0 = 0`, `F 1 = 1`,
`F n = F (n-1) + F (n-2)`, i.e. the loop implementation equals the naive
recursive reference definition. -/
theorem C8_fib_refines_recurrence (n : Int) (h : 0 ≤ n) :
    calculate_fibonacci n = fibRef n.toNat := by
  rcases lt_or_le n 2 with hlt | hge
  · interval_cases n <;> decide
  · exact calculate_fibonacci_ge_two n hge

/-- Witness for C8 at the concrete input 10. -/
theorem C8_fib_refines_recurrence_witness :
    (0 : Int) ≤ 10 ∧ calculate_fibonacci 10 = fibRef (Int.toNat 10) :=
  ⟨by decide, C8_fib_refines_recurrence 10 (by decide)⟩

/-- C9: for every integer `n ≤ 0`, `calculate_fibonacci n` returns 0 rather
than raising an error; negative arguments are silently mapped to 0. -/
theorem C9_nonpositive_returns_zero (n : Int) (h : n ≤ 0) :
    calculate_fibonacci n = 0 := by
  unfold calculate_fibonacci
  rw [if_pos h]

/-- Witness for C9 at the concrete input -7. -/
theorem C9_nonpositive_returns_zero_witness :
    (-7 : Int) ≤ 0 ∧ calculate_fibonacci (-7) = 0 :=
  ⟨by decide, C9_nonpositive_returns_zero (-7) (by decide)⟩

/-- C10: `calculate_fibonacci` terminates for every integer input: its only
loop runs exactly `rangeSize n` iterations (the size of `range(2, n+1)`),
so the fuel-indexed version completes with that much fuel and agrees with
the total function; the range is empty when `n < 2`. -/
theorem C10_loop_terminates (n : Int) :
    calcFibFuel (rangeSize n) n = some (calculate_fibonacci n) ∧
      (n < 2 → rangeSize n = 0) := by
  constructor
  · unfold calcFibFuel calculate_fibonacci
    split
    · rfl
    · split
      · rfl
      · rw [fibLoopFuel_complete]
        rfl
  · intro h
    unfold rangeSize
    omega

/-- Witness for C10 at the concrete input 1 (range empty) discharging the
inner hypothesis. -/
theorem C10_loop_terminates_witness :
    rangeSize 1 = 0 ∧ calcFibFuel (rangeSize 1) 1 = some (calculate_fibonacci 1) :=
  ⟨(C10_loop_terminates 1).2 (by decide), (C10_loop_terminates 1).1⟩

namespace Plugin

/-! ## Claims about the Vector3 math operations -/

/-- C2: for every pair of Vector3 values `a` and `b`, `dot a b = dot b a`,
where `dot` is defined componentwise as `a.x*b.x + a.y*b.y + a.z*b.z`. -/
theorem C2_dot_comm (a b : Vector3) : dot a b = dot b a := by
  unfold dot
  ring

/-- C3: for every pair of Vector3 values `a` and `b`, `cross a b` equals
the componentwise negation of `cross b a`, where `cross` is the
right-handed cross product. -/
theorem C3_cross_anticomm (a b : Vector3) :
    cross a b = vneg (cross b a) := by
  ext <;> simp [cross, vneg] <;> ring

/-- C4: for all Vector3 `a` and `b`, `subtract (add a b) b` returns `a`
exactly (the real-number model of the spec's componentwise addition and
symmetric subtraction makes the identity exact). -/
theorem C4_add_then_subtract (a b : Vector3) :
    vsub (vadd a b) b = a := by
  ext <;> simp [vadd, vsub]

/-- C5: for every pair of values accepted by lerp — scalars, or
componentwise Vector3 — `lerp a b 0 = a` exactly and `lerp a b 1 = b`
exactly, where `lerp a b t = a + (b - a) * t`. -/
theorem C5_lerp_endpoints :
    (∀ a b : ℝ, lerp a b 0 = a ∧ lerp a b 1 = b) ∧
      (∀ a b : Vector3, lerpV a b 0 = a ∧ lerpV a b 1 = b) := by
  constructor
  · intro a b
    constructor <;> (unfold lerp; ring)
  · intro a b
    constructor <;> (ext <;> simp [lerpV, lerp])

/-- C6 counterexample: at `v = (1,2,3)` and the zero axis, `rotated v axis 0`
fails (DomainError, modelled as `none`) instead of returning `v`, so the
claim does not hold for *every* axis. -/
theorem C6_counterexample :
    rotated ⟨1, 2, 3⟩ ⟨0, 0, 0⟩ 0 ≠ some ⟨1, 2, 3⟩ := by
  have h : length ⟨0, 0, 0⟩ = 0 := by
    simp [length, dot]
  simp [rotated, h]

/-- C6 (amended): for every Vector3 `v` and every axis of non-zero length,
`rotated v axis 0 = some v` (identity rotation), where `rotated` applies
Rodrigues' formula about an internally unit-normalized copy of `axis`. -/
theorem C6_rotated_zero_angle (v axis : Vector3) (h : length axis ≠ 0) :
    rotated v axis 0 = some v := by
  unfold rotated
  rw [if_neg h]
  simp [vadd, scalarMultiply, cross, dot]

/-- Witness for C6 at `v = (1,2,3)`, `axis = (0,0,2)` (length 2). -/
theorem C6_rotated_zero_angle_witness :
    length ⟨0, 0, 2⟩ ≠ 0 ∧ rotated ⟨1, 2, 3⟩ ⟨0, 0, 2⟩ 0 = some ⟨1, 2, 3⟩ := by
  have h2 : length (⟨0, 0, 2⟩ : Vector3) = 2 := by
    have h4 : dot (⟨0, 0, 2⟩ : Vector3) ⟨0, 0, 2⟩ = 4 := by
      norm_num [dot]
    rw [length, h4, show (4 : ℝ) = 2 ^ 2 by norm_num,
      Real.sqrt_sq (by norm_num : (0 : ℝ) ≤ 2)]
  have h : length (⟨0, 0, 2⟩ : Vector3) ≠ 0 := by
    rw [h2]; norm_num
  exact ⟨h, C6_rotated_zero_angle ⟨1, 2, 3⟩ ⟨0, 0, 2⟩ h⟩

/-- C7: `normalize v` fails (DomainError, modelled as `none`) exactly when
`length v = 0`; for every non-zero `v` it returns `v` with each component
divided by `length v`, and the length of that result is 1 (approximately 1
in floating point; exactly 1 in the real-number model). -/
theorem C7_normalize_spec (v : Vector3) :
    (normalize v = none ↔ length v = 0) ∧
      (v ≠ ⟨0, 0, 0⟩ →
        normalize v =
          some ⟨v.x / length v, v.y / length v, v.z / length v⟩ ∧
        length ⟨v.x / length v, v.y / length v, v.z / length v⟩ = 1) := by
  constructor
  · constructor
    · intro h
      by_contra hl
      unfold normalize at h
      rw [if_neg hl] at h
      exact Option.some_ne_none _ h
    · intro h
      unfold normalize
      rw [if_pos h]
  · intro hv
    have hl : length v ≠ 0 := fun h => hv ((length_eq_zero_iff v).mp h)
    refine ⟨by unfold normalize; rw [if_neg hl], ?_⟩
    have hs := length_mul_self v
    have hd : dot ⟨v.x / length v, v.y / length v, v.z / length v⟩
        ⟨v.x / length v, v.y / length v, v.z / length v⟩ = 1 := by
      unfold dot at hs ⊢
      field_simp
      linarith [hs]
    show Real.sqrt (dot ⟨v.x / length v, v.y / length v, v.z / length v⟩
      ⟨v.x / length v, v.y / length v, v.z / length v⟩) = 1
    rw [hd, Real.sqrt_one]

/-- Witness for C7 at `v = (3,0,4)` (length 5). -/
theorem C7_normalize_spec_witness :
    normalize ⟨3, 0, 4⟩ = some ⟨3 / 5, 0 / 5, 4 / 5⟩ ∧
      length ⟨3 / 5, 0 / 5, 4 / 5⟩ = 1 := by
  have hv : (⟨3, 0, 4⟩ : Vector3) ≠ ⟨0, 0, 0⟩ := by
    simp [Vector3.ext_iff]
  have hl : length (⟨3, 0, 4⟩ : Vector3) = 5 := by
    have h25 : dot (⟨3, 0, 4⟩ : Vector3) ⟨3, 0, 4⟩ = 25 := by
      norm_num [dot]
    rw [length, h25, show (25 : ℝ) = 5 ^ 2 by norm_num,
      Real.sqrt_sq (by norm_num : (0 : ℝ) ≤ 5)]
  have h := (C7_normalize_spec ⟨3, 0, 4⟩).2 hv
  rw [hl] at h
  exact h

end Plugin
